import Mathlib

/-!
Verification of the weserv/images request-time transformation pipeline
(`src/api/processors/stream.cpp` together with `src/api/io/blob.h`).

The C++ pipeline is shallowly embedded: every function below mirrors one
source function.  Values read from the Parameter Store arrive as `Option`
inputs (absent/unconvertible raw parameters are `none`); libvips image
handles are replaced by the data the pipeline actually inspects (page
count, per-page pixel products, alpha presence, EXIF orientation code).
Machine integers are modelled as `Int`/`Nat` (all quantities involved are
far below any overflow boundary on the paths the pipeline exercises).
-/

deriving instance DecidableEq for Except

namespace Weserv

/-- Modelled from the spec: the Parameter Store contract for
`get_if<T>(key, validator, default)` — returns the raw value when present
and accepted by the validator, the default otherwise (the store
implementation itself is not under `src/`; only its contract is used). -/
def get_if {α : Type} (raw : Option α) (validator : α → Bool) (dflt : α) : α :=
  match raw with
  | none => dflt
  | some v => if validator v then v else dflt

/-- Modelled from the spec: the Parameter Store contract for
`get<T>(key, default)` — the raw value when present, the default
otherwise. -/
def get {α : Type} (raw : Option α) (dflt : α) : α :=
  raw.getD dflt

/-- Configuration fields of `api::Config` consulted by the embedded
pipeline fragments (read-only, process-wide). -/
structure StreamConfig where
  max_pages : Int
  limit_input_pixels : Nat
deriving DecidableEq

/-- The typed failure kinds raised by the embedded pipeline.  Both
`TooLargeImageException` sites of `new_from_source` are distinguished by
their (distinct) messages in the source; here they are distinct
constructors.  `unsupportedSaver` carries the saver bitmask, standing for
the message part "Supported savers: ..." built from `config_.savers`. -/
inductive StreamError where
  | tooLargePages : StreamError
  | tooLargePixels : StreamError
  | unsupportedSaver : Nat → StreamError
deriving DecidableEq

/-- Embeds `Stream::get_page_load_options` (stream.cpp): resolve the `page` and
`n` query parameters against the total page count, returning the pair
`(n, page)` exactly as the source's `std::pair{n, page}`. -/
def get_page_load_options (qpage qn : Option Int) (n_pages : Int) : Int × Int :=
  if n_pages = 1 then (1, 0)
  else
    let page := get_if qpage
      (fun p => p == -1 || p == -2 || (decide (0 ≤ p) && decide (p ≤ n_pages))) 0
    if page = -1 ∨ page = -2 then (1, page)
    else
      let n := get_if qn
        (fun n => n == -1 || (decide (1 ≤ n) && decide (n ≤ n_pages))) 1
      let n := if n = -1 then n_pages - page else n
      (n, page)

/-- One iteration of the loop body of `Stream::resolve_page`: the
accumulator is `(target_page, size)`; page `i` replaces it exactly when
`comp (px i) size` holds. -/
def page_scan_step (px : Nat → Nat) (comp : Nat → Nat → Bool)
    (acc : Nat × Nat) (i : Nat) : Nat × Nat :=
  if comp (px i) acc.2 then (i, px i) else acc

/-- Embeds `Stream::resolve_page` (stream.cpp): starting from page 0 (already
decoded, pixel product `px 0`), scan pages `1 .. n_pages-1`, keeping the
index whose `height*width` product wins the strict comparison `comp`
against the running best. -/
def resolve_page (px : Nat → Nat) (n_pages : Int) (comp : Nat → Nat → Bool) : Nat :=
  ((List.range' 1 (n_pages - 1).toNat).foldl (page_scan_step px comp) (0, px 0)).1

/-- Result of the embedded `Stream::new_from_source`: the outcome (the
persisted `(n, page)` pair or the raised error), instrumented with the
number of extra single-page decodes performed by the largest/smallest
scan and with the pixel product the input-pixel limit was checked
against. -/
structure LoadResult where
  outcome : Except StreamError (Int × Int)
  scan_decodes : Nat
  final_pixels : Nat
/-- Embeds `Stream::new_from_source(const Source &)` (stream.cpp), from the point
where the initial decode succeeded: `n_pages` is the `VIPS_META_N_PAGES`
value (1 when absent), `qpage`/`qn` the raw `page`/`n` query parameters,
`px i` the `height*width` product of page `i` decoded on its own (the
initial decode shows page 0, the scan decodes one page at a time), and
`fp n page` the `height*width` product of the image reloaded with load
options `n`, `page`. -/
def new_from_source (cfg : StreamConfig) (n_pages : Int) (qpage qn : Option Int)
    (px : Nat → Nat) (fp : Int → Int → Nat) : LoadResult :=
  let np := get_page_load_options qpage qn n_pages
  let n := np.1
  let page := np.2
  if n ≠ 1 ∨ page ≠ 0 then
    if 0 < cfg.max_pages ∧ cfg.max_pages < n then
      { outcome := .error .tooLargePages, scan_decodes := 0, final_pixels := 0 }
    else
      let page2 : Int :=
        if page = -1 then (resolve_page px n_pages (fun a b => decide (b < a)) : Nat)
        else if page = -2 then (resolve_page px n_pages (fun a b => decide (a < b)) : Nat)
        else page
      let scans := if page = -1 ∨ page = -2 then (n_pages - 1).toNat else 0
      let area := fp n page2
      if 0 < cfg.limit_input_pixels ∧ cfg.limit_input_pixels < area then
        { outcome := .error .tooLargePixels, scan_decodes := scans, final_pixels := area }
      else
        { outcome := .ok (n, page2), scan_decodes := scans, final_pixels := area }
  else
    let area := px 0
    if 0 < cfg.limit_input_pixels ∧ cfg.limit_input_pixels < area then
      { outcome := .error .tooLargePixels, scan_decodes := 0, final_pixels := area }
    else
      { outcome := .ok (n, page), scan_decodes := 0, final_pixels := area }

/-- Value of `VIPS_MAX_COORD`, the libvips maximum image dimension `1 << 27`. -/
def VIPS_MAX_COORD : Int := 134217728

/-- Embeds C++ `std::clamp(v, lo, hi)`: `v < lo ? lo : hi < v ? hi : v`. -/
def clampInt (v lo hi : Int) : Int :=
  if v < lo then lo else if hi < v then hi else v

/-- Embeds C++ `static_cast<int>(std::round(x))`: round half away from zero
(the float arithmetic of the source is modelled over `ℚ`). -/
def cppRound (q : ℚ) : Int :=
  if q < 0 then -(⌊-q + 1/2⌋) else ⌊q + 1/2⌋

/-- The parameters persisted into the store by `Stream::resolve_query`. -/
structure ResolvedQuery where
  angle : Int
  flip : Bool
  flop : Bool
  w : Int
  h : Int
  input_width : Int
  input_height : Int
deriving DecidableEq

/-- The rotation/flip/flop half of `Stream::resolve_query` (stream.cpp):
validate the raw `ro` parameter (C++ `%` on `int` is truncated division,
`Int.tmod`), read `flip`/`flop`, apply the EXIF-orientation `switch`,
then normalize the accumulated rotation into an angle in `[0, 360)`.
Returns the persisted `(angle, flip, flop)`. -/
def resolve_rotation (ro_raw : Option Int) (flip_raw flop_raw : Option Bool)
    (exif : Int) : Int × Bool × Bool :=
  let rotate := get_if ro_raw (fun r => r.tmod 90 == 0) 0
  let flip := get flip_raw false
  let flop := get flop_raw false
  let rff : Int × Bool × Bool :=
    if exif = 6 then (rotate + 90, flip, flop)
    else if exif = 3 then (rotate + 180, flip, flop)
    else if exif = 8 then (rotate + 270, flip, flop)
    else if exif = 2 then (rotate, flip, true)
    else if exif = 7 then (rotate + 90, true, flop)
    else if exif = 4 then (rotate + 180, flip, true)
    else if exif = 5 then (rotate + 270, true, flop)
    else (rotate, flip, flop)
  let angle0 := rff.1.tmod 360
  let angle := if angle0 < 0 then 360 + angle0 else angle0
  (angle, rff.2.1, rff.2.2)

/-- The target-dimension half of `Stream::resolve_query` (stream.cpp):
scale the resolved target dimensions by a `dpr` in `[0, 8]`, swap them
for EXIF orientations above 4 unless `precrop` is set, and clamp both to
`[0, VIPS_MAX_COORD]`.  Returns the persisted `(w, h)`. -/
def resolve_dims (exif : Int) (tw th : Int)
    (dpr_raw : Option ℚ) (precrop_raw : Option Bool) : Int × Int :=
  let density := get dpr_raw (-1 : ℚ)
  let twh : Int × Int :=
    if 0 ≤ density ∧ density ≤ 8 then
      (cppRound ((tw : ℚ) * density), cppRound ((th : ℚ) * density))
    else (tw, th)
  let twh2 : Int × Int :=
    if 4 < exif ∧ ¬(get precrop_raw false) then (twh.2, twh.1) else twh
  (clampInt twh2.1 0 VIPS_MAX_COORD, clampInt twh2.2 0 VIPS_MAX_COORD)

/-- Embeds `Stream::resolve_query` (stream.cpp).  `ro_raw`/`flip_raw`/`flop_raw`/
`dpr_raw`/`precrop_raw` are the raw query parameters; `exif` is the value
of `utils::exif_orientation(image)` (0 when the tag is absent); `iw`/`ih`
are the decoded image's width and height, and `tw`/`th` the requested
width/height `Coordinate`s already resolved against them by
`Coordinate::to_pixels` (the `Coordinate` parser lives outside the
embedded translation unit). -/
def resolve_query (ro_raw : Option Int) (flip_raw flop_raw : Option Bool)
    (exif : Int) (iw ih : Int) (tw th : Int)
    (dpr_raw : Option ℚ) (precrop_raw : Option Bool) : ResolvedQuery :=
  let aff := resolve_rotation ro_raw flip_raw flop_raw exif
  let wh := resolve_dims exif tw th dpr_raw precrop_raw
  { angle := aff.1, flip := aff.2.1, flop := aff.2.2,
    w := wh.1, h := wh.2,
    input_width := iw, input_height := ih }

/-- Modelled from the spec: the `enums::Output` constants used by
stream.cpp (the enums header is not under `src/`); savers are
"administratively enable/disable via a bitmask", so each concrete output
format is a distinct bit flag, `Origin` being the request-only default. -/
inductive Output where
  | origin | jpeg | png | webp | avif | tiff | gif | json
deriving DecidableEq

/-- Modelled from the spec: the numeric bit-flag value of an output
format inside the enabled-saver bitmask (`static_cast<uintptr_t>(output)`
in the source's `config_.savers & ...` test). -/
def Output.flag : Output → Nat
  | .origin => 0
  | .jpeg => 1
  | .png => 2
  | .webp => 4
  | .avif => 8
  | .tiff => 16
  | .gif => 32
  | .json => 64

/-- Modelled from the spec: the `enums::ImageType` detected-input-type
constants (header not under `src/`; the embedding only needs a type with
decidable equality and an `Unknown` default). -/
inductive ImageType where
  | jpeg | png | webp | avif | tiff | gif | svg | pdf | heif | magick | unknown
deriving DecidableEq

/-- The output-format negotiation step of `Stream::write_to_target`
(stream.cpp): an explicit format is used as-is; `Origin` falls back to
the detected input type's mapped output unless the image carries an alpha
channel the input type cannot, in which case PNG is forced.
`support_alpha` stands for `utils::support_alpha_channel` and `to_output`
for `utils::to_output` (both in a utility header outside `src/`), kept
abstract as parameters. -/
def negotiate_output (support_alpha : ImageType → Bool)
    (to_output : ImageType → Output)
    (output : Output) (image_type : ImageType) (has_alpha : Bool) : Output :=
  if output = .origin then
    if support_alpha image_type || !has_alpha then to_output image_type else .png
  else output

/-- The frame-delay resolution step of `Stream::write_to_target`
(stream.cpp): validate the raw `delay` list (every entry `≥ 0`, otherwise
fall back to the empty default), then, when non-empty, expand a singleton
to `n` copies by appending `n - 1` repetitions of its head; `none` means
no `delay` metadata is attached to the image copy. -/
def resolve_delays (delay_raw : Option (List Int)) (q_n : Int) : Option (List Int) :=
  let delays := get_if delay_raw (fun v => v.all (fun d => decide (0 ≤ d))) []
  if delays = [] then none
  else if delays.length = 1 then
    some (delays ++ List.replicate (q_n - 1).toNat (delays.headD 0))
  else some delays

/-- The terminal action of a successful `Stream::write_to_target`:
either the metadata-only JSON serialization is written to the target, or
the codec's `write_to_target` is invoked for the negotiated format. -/
inductive WriteAction where
  | jsonWrite : WriteAction
  | codecWrite : Output → WriteAction
deriving DecidableEq

/-- Result of the embedded `Stream::write_to_target`: the metadata
attached to the working copy before format dispatch, and the outcome
(raised error or terminal write action). -/
structure WriteResult where
  page_height_set : Option Int
  loop_set : Option Int
  delay_set : Option (List Int)
  outcome : Except StreamError WriteAction

/-- Embeds `Stream::write_to_target` (stream.cpp).  `savers` is the
`config_.savers` bitmask; `q_n`, `q_page_height`, `loop_raw`, `delay_raw`,
`output_raw`, `type_raw` are the store's `n`, `page_height`, `loop`,
`delay`, `output`, `type` entries; `has_alpha` is `copy.has_alpha()`.
The per-format save options and the timeout guard do not affect which
branch is taken and are not modelled. -/
def write_to_target (savers : Nat) (support_alpha : ImageType → Bool)
    (to_output : ImageType → Output)
    (q_n : Int) (q_page_height : Int) (loop_raw : Option Int)
    (delay_raw : Option (List Int)) (output_raw : Option Output)
    (type_raw : Option ImageType) (has_alpha : Bool) : WriteResult :=
  let page_height_set := if 1 < q_n then some q_page_height else none
  let loop := get loop_raw (-1)
  let loop_set := if 0 ≤ loop then some loop else none
  let delay_set := resolve_delays delay_raw q_n
  let output0 := get output_raw Output.origin
  let image_type := get type_raw ImageType.unknown
  let output := negotiate_output support_alpha to_output output0 image_type has_alpha
  if savers &&& output.flag = 0 then
    { page_height_set := page_height_set, loop_set := loop_set,
      delay_set := delay_set, outcome := .error (.unsupportedSaver savers) }
  else if output = .json then
    { page_height_set := page_height_set, loop_set := loop_set,
      delay_set := delay_set, outcome := .ok .jsonWrite }
  else
    { page_height_set := page_height_set, loop_set := loop_set,
      delay_set := delay_set, outcome := .ok (.codecWrite output) }

/-- The EXIF-orientation angle adjustment table as the spec states it
(codes 3 and 4 add 180, codes 6 and 7 add 90, codes 5 and 8 add 270,
every other code adds nothing). -/
def exif_angle_add (exif : Int) : Int :=
  if exif = 3 ∨ exif = 4 then 180
  else if exif = 6 ∨ exif = 7 then 90
  else if exif = 5 ∨ exif = 8 then 270
  else 0

/-- The EXIF codes that force the flip flag (5 and 7). -/
def exif_sets_flip (exif : Int) : Bool :=
  exif = 5 ∨ exif = 7

/-- The EXIF codes that force the flop flag (2 and 4). -/
def exif_sets_flop (exif : Int) : Bool :=
  exif = 2 ∨ exif = 4

/-- Written from the words of the spec, to be compared with
`resolve_dims`: the target dimensions are the resolved coordinates,
scaled by `dpr` (rounded to nearest) exactly when `dpr ∈ [0, 8]`, then
swapped exactly when the EXIF orientation code exceeds 4 and `precrop`
is not set, then clamped to `[0, VIPS_MAX_COORD]`. -/
def target_dims_spec (exif : Int) (tw th : Int) (dpr : ℚ) (precrop : Bool) :
    Int × Int :=
  let scaled : Int × Int :=
    if 0 ≤ dpr ∧ dpr ≤ 8 then
      (cppRound ((tw : ℚ) * dpr), cppRound ((th : ℚ) * dpr))
    else (tw, th)
  let swapped : Int × Int :=
    if 4 < exif ∧ precrop = false then (scaled.2, scaled.1) else scaled
  (clampInt swapped.1 0 VIPS_MAX_COORD, clampInt swapped.2 0 VIPS_MAX_COORD)

/-! ## Theorems -/

/-- The source's two-step normalization (truncated `%`, then a
conditional `+ 360`) agrees with the Euclidean remainder by 360. -/
theorem tmod_normalize (x : Int) :
    (if x.tmod 360 < 0 then 360 + x.tmod 360 else x.tmod 360) = x % 360 := by
  rcases le_or_lt 0 x with h | h
  · rw [Int.tmod_eq_emod h (by norm_num)]
    have h1 : 0 ≤ x % 360 := Int.emod_nonneg x (by norm_num)
    rw [if_neg (by omega)]
  · have hneg : x.tmod 360 = -((-x).tmod 360) := by
      rw [Int.tmod_def, Int.tmod_def, Int.neg_tdiv]; ring
    rw [hneg, Int.tmod_eq_emod (by omega) (by norm_num)]
    have h1 : 0 ≤ (-x) % 360 := Int.emod_nonneg _ (by norm_num)
    have h2 : (-x) % 360 < 360 := Int.emod_lt_of_pos _ (by norm_num)
    have h3 : 0 ≤ x % 360 := Int.emod_nonneg x (by norm_num)
    have h4 : x % 360 < 360 := Int.emod_lt_of_pos x (by norm_num)
    split_ifs with hif <;> omega

/-- The rotation half of `resolve_query` in closed form: the angle is
the validated rotation plus the EXIF table entry, reduced mod 360, and
the flags are the requested ones OR-ed with the EXIF-forced ones. -/
theorem resolve_rotation_eq (ro_raw : Option Int) (flip_raw flop_raw : Option Bool)
    (exif : Int) :
    resolve_rotation ro_raw flip_raw flop_raw exif
      = ((get_if ro_raw (fun r => r.tmod 90 == 0) 0 + exif_angle_add exif) % 360,
         (get flip_raw false || exif_sets_flip exif),
         (get flop_raw false || exif_sets_flop exif)) := by
  simp only [resolve_rotation, exif_angle_add, exif_sets_flip, exif_sets_flop]
  rcases eq_or_ne exif 6 with h | h6
  · subst h; simp [tmod_normalize]
  rcases eq_or_ne exif 3 with h | h3
  · subst h; simp [tmod_normalize]
  rcases eq_or_ne exif 8 with h | h8
  · subst h; simp [tmod_normalize]
  rcases eq_or_ne exif 2 with h | h2
  · subst h; simp [tmod_normalize]
  rcases eq_or_ne exif 7 with h | h7
  · subst h; simp [tmod_normalize]
  rcases eq_or_ne exif 4 with h | h4
  · subst h; simp [tmod_normalize]
  rcases eq_or_ne exif 5 with h | h5
  · subst h; simp [tmod_normalize]
  · simp [h6, h3, h8, h2, h7, h4, h5, tmod_normalize]

/-- The validated `ro` parameter is always a multiple of 90. -/
theorem get_if_ro_dvd (ro_raw : Option Int) :
    (90 : Int) ∣ get_if ro_raw (fun r => r.tmod 90 == 0) 0 := by
  cases ro_raw with
  | none => simp [get_if]
  | some v =>
    simp only [get_if]
    split_ifs with h
    · exact Int.dvd_of_tmod_eq_zero (by simpa using h)
    · simp

/-- The EXIF angle adjustment is always a multiple of 90. -/
theorem exif_angle_add_dvd (exif : Int) : (90 : Int) ∣ exif_angle_add exif := by
  unfold exif_angle_add
  split_ifs <;> norm_num

/-- Claim C4: for every raw rotate parameter (validated to multiples of
90 of any sign, invalid values falling back to 0) and every EXIF
orientation code, the persisted angle is the requested rotation plus the
EXIF table adjustment, normalized into `[0, 360)`, always a multiple of
90, and the flip/flop flags are the requested ones OR-ed with the
EXIF-forced ones; in particular `rotate = -90` yields angle 270, EXIF
code 6 with `rotate = 0` yields angle 90 with both flags clear, and EXIF
code 7 with `rotate = 0` yields angle 90 with flip set. -/
theorem c4_orientation_normalization (ro_raw : Option Int)
    (flip_raw flop_raw : Option Bool) (exif iw ih tw th : Int)
    (dpr_raw : Option ℚ) (precrop_raw : Option Bool) :
    (let r := resolve_query ro_raw flip_raw flop_raw exif iw ih tw th dpr_raw precrop_raw
     r.angle = (get_if ro_raw (fun v => v.tmod 90 == 0) 0 + exif_angle_add exif) % 360
     ∧ 0 ≤ r.angle ∧ r.angle < 360 ∧ (90 : Int) ∣ r.angle
     ∧ r.flip = (get flip_raw false || exif_sets_flip exif)
     ∧ r.flop = (get flop_raw false || exif_sets_flop exif))
    ∧ (resolve_query (some (-90)) none none 0 iw ih tw th none none).angle = 270
    ∧ (resolve_query (some 0) none none 6 iw ih tw th none none).angle = 90
    ∧ (resolve_query (some 0) none none 6 iw ih tw th none none).flip = false
    ∧ (resolve_query (some 0) none none 6 iw ih tw th none none).flop = false
    ∧ (resolve_query (some 0) none none 7 iw ih tw th none none).angle = 90
    ∧ (resolve_query (some 0) none none 7 iw ih tw th none none).flip = true := by
  have hrq : ∀ ro fl fo ex dq pc,
      (resolve_query ro fl fo ex iw ih tw th dq pc).angle
          = (resolve_rotation ro fl fo ex).1
        ∧ (resolve_query ro fl fo ex iw ih tw th dq pc).flip
          = (resolve_rotation ro fl fo ex).2.1
        ∧ (resolve_query ro fl fo ex iw ih tw th dq pc).flop
          = (resolve_rotation ro fl fo ex).2.2 := by
    intro ro fl fo ex dq pc
    simp [resolve_query]
  refine ⟨?_, ?_, ?_, ?_, ?_, ?_, ?_⟩
  · obtain ⟨ha, hfl, hfo⟩ := hrq ro_raw flip_raw flop_raw exif dpr_raw precrop_raw
    rw [resolve_rotation_eq] at ha hfl hfo
    refine ⟨ha, ?_, ?_, ?_, hfl, hfo⟩
    · rw [ha]; exact Int.emod_nonneg _ (by norm_num)
    · rw [ha]; exact Int.emod_lt_of_pos _ (by norm_num)
    · rw [ha]
      have hd : (90 : Int) ∣ get_if ro_raw (fun v => v.tmod 90 == 0) 0 + exif_angle_add exif :=
        dvd_add (get_if_ro_dvd ro_raw) (exif_angle_add_dvd exif)
      have h360 : (90 : Int) ∣ 360 := by norm_num
      have := Int.emod_emod_of_dvd (get_if ro_raw (fun v => v.tmod 90 == 0) 0
          + exif_angle_add exif) h360
      rw [Int.emod_eq_zero_of_dvd hd] at this
      exact Int.dvd_of_emod_eq_zero this
  · rw [(hrq _ _ _ _ _ _).1, resolve_rotation_eq]; rfl
  · rw [(hrq _ _ _ _ _ _).1, resolve_rotation_eq]; rfl
  · rw [(hrq _ _ _ _ _ _).2.1, resolve_rotation_eq]; rfl
  · rw [(hrq _ _ _ _ _ _).2.2, resolve_rotation_eq]; rfl
  · rw [(hrq _ _ _ _ _ _).1, resolve_rotation_eq]; rfl
  · rw [(hrq _ _ _ _ _ _).2.1, resolve_rotation_eq]; rfl

/-- Clamping with `clampInt v 0 hi` lands in `[0, hi]` whenever `0 ≤ hi`. -/
theorem clampInt_zero_bounds (v hi : Int) (h : 0 ≤ hi) :
    0 ≤ clampInt v 0 hi ∧ clampInt v 0 hi ≤ hi := by
  unfold clampInt
  split_ifs <;> omega

/-- Claim C5: the persisted target dimensions are the resolved requested
coordinates, scaled by the `dpr` parameter (rounded to nearest) exactly
when it lies in `[0, 8]` (whether supplied or the absent default `-1`),
swapped with each other exactly when the EXIF orientation code exceeds 4
and `precrop` is not set, then clamped to `[0, VIPS_MAX_COORD]` — so in
particular they always land in that interval. -/
theorem c5_target_dimensions (ro_raw : Option Int)
    (flip_raw flop_raw : Option Bool) (exif iw ih tw th : Int)
    (dpr_raw : Option ℚ) (precrop_raw : Option Bool) :
    (resolve_query ro_raw flip_raw flop_raw exif iw ih tw th dpr_raw precrop_raw).w
        = (target_dims_spec exif tw th (get dpr_raw (-1)) (get precrop_raw false)).1
    ∧ (resolve_query ro_raw flip_raw flop_raw exif iw ih tw th dpr_raw precrop_raw).h
        = (target_dims_spec exif tw th (get dpr_raw (-1)) (get precrop_raw false)).2
    ∧ 0 ≤ (resolve_query ro_raw flip_raw flop_raw exif iw ih tw th dpr_raw precrop_raw).w
    ∧ (resolve_query ro_raw flip_raw flop_raw exif iw ih tw th dpr_raw precrop_raw).w
        ≤ VIPS_MAX_COORD
    ∧ 0 ≤ (resolve_query ro_raw flip_raw flop_raw exif iw ih tw th dpr_raw precrop_raw).h
    ∧ (resolve_query ro_raw flip_raw flop_raw exif iw ih tw th dpr_raw precrop_raw).h
        ≤ VIPS_MAX_COORD := by
  have heq : resolve_dims exif tw th dpr_raw precrop_raw
      = target_dims_spec exif tw th (get dpr_raw (-1)) (get precrop_raw false) := by
    simp only [resolve_dims, target_dims_spec, Bool.not_eq_true]
  refine ⟨?_, ?_, ?_, ?_, ?_, ?_⟩ <;>
    simp only [resolve_query, heq] <;>
    first
      | rfl
      | · unfold target_dims_spec
          exact (clampInt_zero_bounds _ _ (by norm_num [VIPS_MAX_COORD])).1
      | · unfold target_dims_spec
          exact (clampInt_zero_bounds _ _ (by norm_num [VIPS_MAX_COORD])).2

/-- Loop invariant of the largest-page scan (`std::greater`, i.e. the
comparator `b < a`): starting from a running best `t` that is a
lowest-index maximum of pages `0 .. s`, folding over pages
`s+1 .. s+k` yields a lowest-index maximum of pages `0 .. s+k`. -/
theorem scan_gt (px : Nat → Nat) :
    ∀ (k s t : Nat), t ≤ s →
      (∀ j, j ≤ s → px j ≤ px t) →
      (∀ j, j < t → px j < px t) →
      ∃ t', (List.range' (s + 1) k).foldl
              (page_scan_step px (fun a b => decide (b < a))) (t, px t) = (t', px t')
        ∧ t' ≤ s + k
        ∧ (∀ j, j ≤ s + k → px j ≤ px t')
        ∧ (∀ j, j < t' → px j < px t') := by
  intro k
  induction k with
  | zero =>
    intro s t hts hmax hstrict
    exact ⟨t, rfl, by omega, fun j hj => hmax j (by omega), hstrict⟩
  | succ k ih =>
    intro s t hts hmax hstrict
    rw [List.range'_succ, List.foldl_cons]
    by_cases h : px t < px (s + 1)
    · have hstep : page_scan_step px (fun a b => decide (b < a)) (t, px t) (s + 1)
          = (s + 1, px (s + 1)) := by
        simp [page_scan_step, h]
      rw [hstep]
      obtain ⟨t', heq, hle, hmax', hstrict'⟩ := ih (s + 1) (s + 1) le_rfl
        (fun j hj => by
          rcases Nat.lt_or_ge j (s + 1) with hj' | hj'
          · exact le_of_lt (lt_of_le_of_lt (hmax j (by omega)) h)
          · have : j = s + 1 := by omega
            simp [this])
        (fun j hj => lt_of_le_of_lt (hmax j (by omega)) h)
      exact ⟨t', heq, by omega, fun j hj => hmax' j (by omega), hstrict'⟩
    · have hstep : page_scan_step px (fun a b => decide (b < a)) (t, px t) (s + 1)
          = (t, px t) := by
        simp [page_scan_step, h]
      rw [hstep]
      obtain ⟨t', heq, hle, hmax', hstrict'⟩ := ih (s + 1) t (by omega)
        (fun j hj => by
          rcases Nat.lt_or_ge j (s + 1) with hj' | hj'
          · exact hmax j (by omega)
          · have : j = s + 1 := by omega
            subst this
            exact Nat.le_of_not_lt h)
        hstrict
      exact ⟨t', heq, by omega, fun j hj => hmax' j (by omega), hstrict'⟩

/-- Loop invariant of the smallest-page scan (`std::less`, i.e. the
comparator `a < b`), dual to `scan_gt`. -/
theorem scan_lt (px : Nat → Nat) :
    ∀ (k s t : Nat), t ≤ s →
      (∀ j, j ≤ s → px t ≤ px j) →
      (∀ j, j < t → px t < px j) →
      ∃ t', (List.range' (s + 1) k).foldl
              (page_scan_step px (fun a b => decide (a < b))) (t, px t) = (t', px t')
        ∧ t' ≤ s + k
        ∧ (∀ j, j ≤ s + k → px t' ≤ px j)
        ∧ (∀ j, j < t' → px t' < px j) := by
  intro k
  induction k with
  | zero =>
    intro s t hts hmin hstrict
    exact ⟨t, rfl, by omega, fun j hj => hmin j (by omega), hstrict⟩
  | succ k ih =>
    intro s t hts hmin hstrict
    rw [List.range'_succ, List.foldl_cons]
    by_cases h : px (s + 1) < px t
    · have hstep : page_scan_step px (fun a b => decide (a < b)) (t, px t) (s + 1)
          = (s + 1, px (s + 1)) := by
        simp [page_scan_step, h]
      rw [hstep]
      obtain ⟨t', heq, hle, hmin', hstrict'⟩ := ih (s + 1) (s + 1) le_rfl
        (fun j hj => by
          rcases Nat.lt_or_ge j (s + 1) with hj' | hj'
          · exact le_of_lt (lt_of_lt_of_le h (hmin j (by omega)))
          · have : j = s + 1 := by omega
            simp [this])
        (fun j hj => lt_of_lt_of_le h (hmin j (by omega)))
      exact ⟨t', heq, by omega, fun j hj => hmin' j (by omega), hstrict'⟩
    · have hstep : page_scan_step px (fun a b => decide (a < b)) (t, px t) (s + 1)
          = (t, px t) := by
        simp [page_scan_step, h]
      rw [hstep]
      obtain ⟨t', heq, hle, hmin', hstrict'⟩ := ih (s + 1) t (by omega)
        (fun j hj => by
          rcases Nat.lt_or_ge j (s + 1) with hj' | hj'
          · exact hmin j (by omega)
          · have : j = s + 1 := by omega
            subst this
            exact Nat.le_of_not_lt h)
        hstrict
      exact ⟨t', heq, by omega, fun j hj => hmin' j (by omega), hstrict'⟩

/-- Running `resolve_page` with `std::greater` returns the lowest index of a
maximal-pixel-product page among `0 .. n_pages-1`. -/
theorem resolve_page_gt_spec (px : Nat → Nat) (P : Int) (hP : 1 ≤ P) :
    (resolve_page px P (fun a b => decide (b < a)) : Int) < P
    ∧ (∀ j : Nat, (j : Int) < P →
        px j ≤ px (resolve_page px P (fun a b => decide (b < a))))
    ∧ (∀ j : Nat, j < resolve_page px P (fun a b => decide (b < a)) →
        px j < px (resolve_page px P (fun a b => decide (b < a)))) := by
  obtain ⟨t', heq, hle, hmax, hstrict⟩ := scan_gt px (P - 1).toNat 0 0 le_rfl
    (fun j hj => by
      have : j = 0 := by omega
      simp [this])
    (fun j hj => by omega)
  have hrp : resolve_page px P (fun a b => decide (b < a)) = t' := by
    unfold resolve_page
    rw [heq]
  rw [hrp]
  refine ⟨by omega, fun j hj => hmax j (by omega), hstrict⟩

/-- Running `resolve_page` with `std::less` returns the lowest index of a
minimal-pixel-product page among `0 .. n_pages-1`. -/
theorem resolve_page_lt_spec (px : Nat → Nat) (P : Int) (hP : 1 ≤ P) :
    (resolve_page px P (fun a b => decide (a < b)) : Int) < P
    ∧ (∀ j : Nat, (j : Int) < P →
        px (resolve_page px P (fun a b => decide (a < b))) ≤ px j)
    ∧ (∀ j : Nat, j < resolve_page px P (fun a b => decide (a < b)) →
        px (resolve_page px P (fun a b => decide (a < b))) < px j) := by
  obtain ⟨t', heq, hle, hmin, hstrict⟩ := scan_lt px (P - 1).toNat 0 0 le_rfl
    (fun j hj => by
      have : j = 0 := by omega
      simp [this])
    (fun j hj => by omega)
  have hrp : resolve_page px P (fun a b => decide (a < b)) = t' := by
    unfold resolve_page
    rw [heq]
  rw [hrp]
  refine ⟨by omega, fun j hj => hmin j (by omega), hstrict⟩

/-- A requested `page` of -1 or -2 short-circuits `n` to 1 and is passed
through by `get_page_load_options`. -/
theorem gplo_special (P : Int) (hP : P ≠ 1) (qn : Option Int) (p : Int)
    (hp : p = -1 ∨ p = -2) :
    get_page_load_options (some p) qn P = (1, p) := by
  simp only [get_page_load_options, if_neg hP, get_if]
  have hv : (p == -1 || p == -2 || (decide (0 ≤ p) && decide (p ≤ P))) = true := by
    rcases hp with h | h <;> simp [h]
  rw [if_pos hv, if_pos hp]

/-- Counterexample to claim C1 as stated: with a configured maximum page
count of 2 and a 5-page input (each page of pixel product 1), a request
with `page = -1` does NOT fail with `TooLargeImage` — the resolved `n` is
1, so the `n > max_pages` guard never fires — and the largest-page scan
decodes all 4 remaining pages. -/
theorem c1_counterexample :
    (new_from_source ⟨2, 0⟩ 5 (some (-1)) none (fun _ => 1) (fun _ _ => 1)).outcome
        = .ok (1, 0)
    ∧ (new_from_source ⟨2, 0⟩ 5 (some (-1)) none (fun _ => 1) (fun _ _ => 1)).outcome
        ≠ .error .tooLargePages
    ∧ (new_from_source ⟨2, 0⟩ 5 (some (-1)) none (fun _ => 1) (fun _ _ => 1)).scan_decodes
        = 4 :=
  ⟨by decide, by decide, by decide⟩

/-- Claim C1 as amended: the page-count limit is indeed checked against
the resolved `n` before any largest/smallest scan runs (whenever the
page-count error is raised, zero extra pages have been decoded), but a
request with `page = -1` or `-2` resolves `n` to 1, so with any positive
configured maximum such a request never fails the page-count check and
the scan decodes all `P - 1` remaining pages regardless of the
configured maximum. -/
theorem c1_page_count_check_amended (cfg : StreamConfig) (P : Int)
    (qp qn : Option Int) (px : Nat → Nat) (fp : Int → Int → Nat) :
    ((new_from_source cfg P qp qn px fp).outcome = .error .tooLargePages →
      (new_from_source cfg P qp qn px fp).scan_decodes = 0)
    ∧ (∀ p : Int, p = -1 ∨ p = -2 → 1 < P → 1 ≤ cfg.max_pages →
        (new_from_source cfg P (some p) qn px fp).outcome ≠ .error .tooLargePages
        ∧ (new_from_source cfg P (some p) qn px fp).scan_decodes = (P - 1).toNat) := by
  constructor
  · simp only [new_from_source]
    split_ifs <;> simp
  · intro p hp hP hmax
    have h1 := gplo_special P (by omega) qn p hp
    have hp0 : p ≠ 0 := by rcases hp with h | h <;> omega
    constructor
    · simp only [new_from_source, h1]
      norm_num [hp0]
      rw [if_neg (by omega : ¬(0 < cfg.max_pages ∧ cfg.max_pages < 1))]
      split_ifs <;> simp
    · simp only [new_from_source, h1]
      norm_num [hp0]
      rw [if_neg (by omega : ¬(0 < cfg.max_pages ∧ cfg.max_pages < 1))]
      split_ifs <;> simp [hp]

/-- Witness for the amended C1 at the counterexample's configuration. -/
theorem c1_page_count_check_amended_witness :
    (new_from_source ⟨2, 0⟩ 5 (some (-1)) none (fun _ => 1) (fun _ _ => 1)).outcome
        ≠ .error .tooLargePages
    ∧ (new_from_source ⟨2, 0⟩ 5 (some (-1)) none (fun _ => 1) (fun _ _ => 1)).scan_decodes
        = ((5 : Int) - 1).toNat :=
  (c1_page_count_check_amended ⟨2, 0⟩ 5 none none (fun _ => 1) (fun _ _ => 1)).2
    (-1) (Or.inl rfl) (by norm_num) (by norm_num)

/-- Claim C7: if the configured maximum pixel count is nonzero and the
pixel product of the page-resolved image exceeds it, the pipeline fails
with the pixel-limit `TooLargeImage` error; the page-count check runs
first, so whenever the resolved `n` exceeds a positive configured page
maximum the page-count error is the one reported, whatever the pixel
area is. -/
theorem c7_pixel_limit_after_page_resolution (cfg : StreamConfig) (P : Int)
    (qp qn : Option Int) (px : Nat → Nat) (fp : Int → Int → Nat) :
    (0 < cfg.max_pages → cfg.max_pages < (get_page_load_options qp qn P).1 →
      (new_from_source cfg P qp qn px fp).outcome = .error .tooLargePages)
    ∧ (¬(0 < cfg.max_pages ∧ cfg.max_pages < (get_page_load_options qp qn P).1) →
      0 < cfg.limit_input_pixels →
      cfg.limit_input_pixels < (new_from_source cfg P qp qn px fp).final_pixels →
      (new_from_source cfg P qp qn px fp).outcome = .error .tooLargePixels) := by
  constructor
  · intro h1 h2
    simp only [new_from_source]
    rw [if_pos (Or.inl (by omega)), if_pos ⟨h1, h2⟩]
  · intro hnot hlim harea
    simp only [new_from_source] at harea ⊢
    split_ifs at harea ⊢ <;> first
      | rfl
      | omega
      | simp_all

/-- Witness for C7: an input violating both limits reports the
page-count error; one violating only the pixel limit reports the
pixel error. -/
theorem c7_pixel_limit_after_page_resolution_witness :
    (new_from_source ⟨2, 10⟩ 5 (some 0) (some 4) (fun _ => 100)
        (fun _ _ => 100)).outcome = .error .tooLargePages
    ∧ (new_from_source ⟨0, 10⟩ 5 (some 0) (some 4) (fun _ => 100)
        (fun _ _ => 100)).outcome = .error .tooLargePixels :=
  ⟨(c7_pixel_limit_after_page_resolution ⟨2, 10⟩ 5 (some 0) (some 4) (fun _ => 100)
      (fun _ _ => 100)).1 (by norm_num) (by decide),
   (c7_pixel_limit_after_page_resolution ⟨0, 10⟩ 5 (some 0) (some 4) (fun _ => 100)
      (fun _ _ => 100)).2 (by decide) (by norm_num) (by decide)⟩

/-- Claim C3: for a multi-page input with requested `page = -1`
(resp. `-2`), the resolved load options are `n = 1` and the index of the
page with the greatest (resp. least) `height*width` product over all
pages, ties resolved to the lowest index (the scan starts from page 0 as
the running best and replaces it only on a strict comparison). -/
theorem c3_largest_smallest_selection (cfg : StreamConfig) (P : Int)
    (qn : Option Int) (px : Nat → Nat) (fp : Int → Int → Nat) (hP : 1 < P)
    (hlim : cfg.limit_input_pixels = 0) :
    (∃ i : Nat, (new_from_source cfg P (some (-1)) qn px fp).outcome = .ok (1, (i : Int))
       ∧ (i : Int) < P
       ∧ (∀ j : Nat, (j : Int) < P → px j ≤ px i)
       ∧ (∀ j : Nat, j < i → px j < px i))
    ∧ (∃ i : Nat, (new_from_source cfg P (some (-2)) qn px fp).outcome = .ok (1, (i : Int))
       ∧ (i : Int) < P
       ∧ (∀ j : Nat, (j : Int) < P → px i ≤ px j)
       ∧ (∀ j : Nat, j < i → px i < px j)) := by
  constructor
  · have h1 := gplo_special P (by omega) qn (-1) (Or.inl rfl)
    refine ⟨resolve_page px P (fun a b => decide (b < a)), ?_, ?_, ?_, ?_⟩
    · simp only [new_from_source, h1]
      norm_num [hlim]
      rw [if_neg (by omega)]
    · exact (resolve_page_gt_spec px P (by omega)).1
    · exact (resolve_page_gt_spec px P (by omega)).2.1
    · exact (resolve_page_gt_spec px P (by omega)).2.2
  · have h1 := gplo_special P (by omega) qn (-2) (Or.inr rfl)
    refine ⟨resolve_page px P (fun a b => decide (a < b)), ?_, ?_, ?_, ?_⟩
    · simp only [new_from_source, h1]
      norm_num [hlim]
      rw [if_neg (by omega)]
    · exact (resolve_page_lt_spec px P (by omega)).1
    · exact (resolve_page_lt_spec px P (by omega)).2.1
    · exact (resolve_page_lt_spec px P (by omega)).2.2

/-- Witness for C3 at `P = 4` with limits disabled. -/
theorem c3_largest_smallest_selection_witness :
    (∃ i : Nat, (new_from_source ⟨0, 0⟩ 4 (some (-1)) none
          (fun k => [3, 5, 5, 2].getD k 0) (fun _ _ => 0)).outcome = .ok (1, (i : Int))
       ∧ (i : Int) < 4
       ∧ (∀ j : Nat, (j : Int) < 4 →
            [3, 5, 5, 2].getD j 0 ≤ [3, 5, 5, 2].getD i 0)
       ∧ (∀ j : Nat, j < i →
            [3, 5, 5, 2].getD j 0 < [3, 5, 5, 2].getD i 0))
    ∧ (∃ i : Nat, (new_from_source ⟨0, 0⟩ 4 (some (-2)) none
          (fun k => [3, 5, 5, 2].getD k 0) (fun _ _ => 0)).outcome = .ok (1, (i : Int))
       ∧ (i : Int) < 4
       ∧ (∀ j : Nat, (j : Int) < 4 →
            [3, 5, 5, 2].getD i 0 ≤ [3, 5, 5, 2].getD j 0)
       ∧ (∀ j : Nat, j < i →
            [3, 5, 5, 2].getD i 0 < [3, 5, 5, 2].getD j 0)) :=
  c3_largest_smallest_selection ⟨0, 0⟩ 4 none
    (fun k => [3, 5, 5, 2].getD k 0) (fun _ _ => 0) (by norm_num) rfl

/-- Claim C2: for every multi-page input (`P > 1`), a requested page
`p ∈ {0, …, P-1}` together with `n ∈ {1, …, P-p}` is returned unchanged
as the pair `(n, p)`, and a requested `n = -1` with a non-negative valid
page `p` resolves to exactly `n = P - p`. -/
theorem c2_page_resolution_identity (P : Int) (hP : 1 < P) :
    (∀ p n : Int, 0 ≤ p → p ≤ P - 1 → 1 ≤ n → n ≤ P - p →
      get_page_load_options (some p) (some n) P = (n, p))
    ∧ (∀ p : Int, 0 ≤ p → p ≤ P →
      get_page_load_options (some p) (some (-1)) P = (P - p, p)) := by
  constructor
  · intro p n hp0 hpP hn1 hnP
    have hP1 : P ≠ 1 := by omega
    simp only [get_page_load_options, get_if, if_neg hP1]
    have hpv : (p == -1 || p == -2 || (decide (0 ≤ p) && decide (p ≤ P))) = true := by
      simp only [Bool.or_eq_true, beq_iff_eq, Bool.and_eq_true, decide_eq_true_eq]
      omega
    rw [if_pos hpv]
    have hpneg : ¬(p = -1 ∨ p = -2) := by omega
    rw [if_neg hpneg]
    have hnv : (n == -1 || (decide (1 ≤ n) && decide (n ≤ P))) = true := by
      simp only [Bool.or_eq_true, beq_iff_eq, Bool.and_eq_true, decide_eq_true_eq]
      omega
    rw [if_pos hnv]
    have hn : n ≠ -1 := by omega
    rw [if_neg hn]
  · intro p hp0 hpP
    have hP1 : P ≠ 1 := by omega
    simp only [get_page_load_options, get_if, if_neg hP1]
    have hpv : (p == -1 || p == -2 || (decide (0 ≤ p) && decide (p ≤ P))) = true := by
      simp only [Bool.or_eq_true, beq_iff_eq, Bool.and_eq_true, decide_eq_true_eq]
      omega
    rw [if_pos hpv]
    have hpneg : ¬(p = -1 ∨ p = -2) := by omega
    rw [if_neg hpneg]
    have hnv : ((-1 : Int) == -1 || (decide (1 ≤ (-1 : Int)) && decide ((-1 : Int) ≤ P))) = true := by
      simp
    rw [if_pos hnv, if_pos rfl]

/-- Witness for C2 at `P = 5`, `p = 2`, `n = 3` and at `p = 1`, `n = -1`. -/
theorem c2_page_resolution_identity_witness :
    get_page_load_options (some 2) (some 3) 5 = (3, 2)
    ∧ get_page_load_options (some 1) (some (-1)) 5 = (4, 1) :=
  ⟨(c2_page_resolution_identity 5 (by norm_num)).1 2 3 (by norm_num)
      (by norm_num) (by norm_num) (by norm_num),
   (c2_page_resolution_identity 5 (by norm_num)).2 1 (by norm_num) (by norm_num)⟩

/-- Attached `delay` metadata from `write_to_target` is exactly
`resolve_delays` of the raw parameter, on every control path. -/
theorem write_to_target_delay_set (savers : Nat) (sa : ImageType → Bool)
    (tf : ImageType → Output) (q_n q_ph : Int) (loop_raw : Option Int)
    (delay_raw : Option (List Int)) (output_raw : Option Output)
    (type_raw : Option ImageType) (ha : Bool) :
    (write_to_target savers sa tf q_n q_ph loop_raw delay_raw output_raw
        type_raw ha).delay_set = resolve_delays delay_raw q_n := by
  simp only [write_to_target]
  split_ifs <;> rfl

/-- Claim C6: with requested output `"origin"`, an image with alpha
whose detected input type cannot carry alpha resolves to PNG; when the
input type is alpha-capable, or the image has no alpha, it resolves to
the input type's natural mapped output. -/
theorem c6_alpha_aware_fallback (support_alpha : ImageType → Bool)
    (to_output : ImageType → Output) (t : ImageType) (ha : Bool) :
    (ha = true → support_alpha t = false →
      negotiate_output support_alpha to_output .origin t ha = .png)
    ∧ (support_alpha t = true ∨ ha = false →
      negotiate_output support_alpha to_output .origin t ha = to_output t) := by
  unfold negotiate_output
  constructor
  · intro h1 h2
    simp [h1, h2]
  · intro h
    rcases h with h | h <;> simp [h]

/-- Witness for C6: a JPEG-detected input (not alpha-capable) with alpha
forces PNG; a WEBP-detected input (alpha-capable) with alpha keeps its
mapped output. -/
theorem c6_alpha_aware_fallback_witness :
    negotiate_output (fun _ => false) (fun _ => .jpeg) .origin .jpeg true = .png
    ∧ negotiate_output (fun _ => true) (fun _ => .webp) .origin .webp true = .webp :=
  ⟨(c6_alpha_aware_fallback (fun _ => false) (fun _ => .jpeg) .jpeg true).1 rfl rfl,
   (c6_alpha_aware_fallback (fun _ => true) (fun _ => .webp) .webp true).2 (Or.inl rfl)⟩

/-- Claim C8: whenever the negotiated output format's bit is cleared in
the configured saver bitmask, `write_to_target` fails with
`UnsupportedSaver` (carrying the enabled-saver bitmask its message
reports) and never reaches the codec's write call; in particular an
explicit WEBP request with the WEBP bit cleared fails this way. -/
theorem c8_disabled_saver (savers : Nat) (support_alpha : ImageType → Bool)
    (to_output : ImageType → Output) (q_n q_ph : Int) (loop_raw : Option Int)
    (delay_raw : Option (List Int)) (output_raw : Option Output)
    (type_raw : Option ImageType) (ha : Bool) :
    (savers &&& (negotiate_output support_alpha to_output (get output_raw .origin)
        (get type_raw .unknown) ha).flag = 0 →
      (write_to_target savers support_alpha to_output q_n q_ph loop_raw
          delay_raw output_raw type_raw ha).outcome = .error (.unsupportedSaver savers)
      ∧ ∀ o, (write_to_target savers support_alpha to_output q_n q_ph loop_raw
          delay_raw output_raw type_raw ha).outcome ≠ .ok (.codecWrite o))
    ∧ (savers &&& Output.flag .webp = 0 →
      (write_to_target savers support_alpha to_output q_n q_ph loop_raw
          delay_raw (some .webp) type_raw ha).outcome
        = .error (.unsupportedSaver savers)) := by
  constructor
  · intro h
    unfold write_to_target
    rw [if_pos h]
    exact ⟨rfl, fun o => by simp⟩
  · intro h
    simp only [write_to_target]
    have hneg : negotiate_output support_alpha to_output
        (get (some Output.webp) .origin) (get type_raw .unknown) ha = .webp := by
      simp [negotiate_output, get]
    rw [hneg, if_pos h]

/-- Witness for C8: saver bitmask 3 (JPEG and PNG only) rejects an
explicit WEBP request. -/
theorem c8_disabled_saver_witness :
    (write_to_target 3 (fun _ => false) (fun _ => .png) 1 0 none none
        (some .webp) none false).outcome = .error (.unsupportedSaver 3) :=
  (c8_disabled_saver 3 (fun _ => false) (fun _ => .png) 1 0 none none
      (some .webp) none false).2 (by decide)

/-- Claim C9: a delay list containing any negative element is discarded
whole (no frame-delay metadata is attached); a validated singleton `[d]`
is expanded to one copy of `d` per resolved page before being attached;
an empty list attaches nothing. -/
theorem c9_frame_delay_expansion (savers : Nat) (sa : ImageType → Bool)
    (tf : ImageType → Output) (q_n q_ph : Int) (loop_raw : Option Int)
    (delay_raw : Option (List Int)) (output_raw : Option Output)
    (type_raw : Option ImageType) (ha : Bool) :
    ((∃ l, delay_raw = some l ∧ l.any (fun d => decide (d < 0)) = true) →
      (write_to_target savers sa tf q_n q_ph loop_raw delay_raw output_raw
          type_raw ha).delay_set = none)
    ∧ (∀ d : Int, 0 ≤ d → delay_raw = some [d] →
      (write_to_target savers sa tf q_n q_ph loop_raw delay_raw output_raw
          type_raw ha).delay_set = some (d :: List.replicate (q_n - 1).toNat d))
    ∧ (delay_raw = some [] →
      (write_to_target savers sa tf q_n q_ph loop_raw delay_raw output_raw
          type_raw ha).delay_set = none) := by
  refine ⟨?_, ?_, ?_⟩
  · rintro ⟨l, hdr, hany⟩
    subst hdr
    rw [write_to_target_delay_set]
    have hall : l.all (fun d => decide (0 ≤ d)) = false := by
      by_contra hc
      have hall := eq_true_of_ne_false hc
      rw [List.all_eq_true] at hall
      rw [List.any_eq_true] at hany
      obtain ⟨x, hx, hxlt⟩ := hany
      have := hall x hx
      simp at this hxlt
      omega
    simp [resolve_delays, get_if, hall]
  · intro d hd hdr
    subst hdr
    rw [write_to_target_delay_set]
    simp [resolve_delays, get_if, hd]
  · intro hdr
    subst hdr
    rw [write_to_target_delay_set]
    simp [resolve_delays, get_if]

/-- Witness for C9: delay `[50]` with 3 resolved pages expands to
`[50, 50, 50]`; a list containing `-1` attaches nothing. -/
theorem c9_frame_delay_expansion_witness :
    (write_to_target 255 (fun _ => false) (fun _ => .png) 3 0 none
        (some [50]) none none false).delay_set = some [50, 50, 50]
    ∧ (write_to_target 255 (fun _ => false) (fun _ => .png) 3 0 none
        (some [50, -1]) none none false).delay_set = none := by
  constructor
  · have h := (c9_frame_delay_expansion 255 (fun _ => false) (fun _ => .png) 3 0
      none (some [50]) none none false).2.1 50 (by norm_num) rfl
    simpa using h
  · exact (c9_frame_delay_expansion 255 (fun _ => false) (fun _ => .png) 3 0
      none (some [50, -1]) none none false).1 ⟨[50, -1], rfl, by decide⟩

/-- Claim C10: a request for the metadata-only JSON output whose JSON
bit is cleared in the saver bitmask fails with `UnsupportedSaver`; the
bitmask check precedes the JSON special case, so the JSON document is
never written. -/
theorem c10_json_behind_saver_check (savers : Nat) (sa : ImageType → Bool)
    (tf : ImageType → Output) (q_n q_ph : Int) (loop_raw : Option Int)
    (delay_raw : Option (List Int)) (type_raw : Option ImageType) (ha : Bool)
    (h : savers &&& Output.flag .json = 0) :
    (write_to_target savers sa tf q_n q_ph loop_raw delay_raw (some .json)
        type_raw ha).outcome = .error (.unsupportedSaver savers)
    ∧ (write_to_target savers sa tf q_n q_ph loop_raw delay_raw (some .json)
        type_raw ha).outcome ≠ .ok .jsonWrite := by
  simp only [write_to_target]
  have hneg : negotiate_output sa tf (get (some Output.json) .origin)
      (get type_raw .unknown) ha = .json := by
    simp [negotiate_output, get]
  rw [hneg, if_pos h]
  exact ⟨rfl, by simp⟩

/-- Witness for C10: saver bitmask 3 (JSON bit 64 cleared) rejects a
JSON request. -/
theorem c10_json_behind_saver_check_witness :
    (write_to_target 3 (fun _ => false) (fun _ => .png) 1 0 none none
        (some .json) none false).outcome = .error (.unsupportedSaver 3)
    ∧ (write_to_target 3 (fun _ => false) (fun _ => .png) 1 0 none none
        (some .json) none false).outcome ≠ .ok .jsonWrite :=
  c10_json_behind_saver_check 3 (fun _ => false) (fun _ => .png) 1 0 none none
    none false (by decide)

end Weserv
